import Mathlib

/-!
Verification of the file-system command watcher (`src/commands/app.js`).

The development shallowly embeds the watcher's change handler, command
dispatch and the four file-operation handlers.  Text is modelled as
`List Char`; JavaScript's `String.prototype.indexOf`, `includes` and
`substring` (with its clamp-and-swap semantics) are transcribed faithfully.
The Node `fs/promises` primitives the handlers call are modelled over an
abstract store `FS` together with injectable OS-level failures
(permission errors and the like), since those primitives belong to the
platform, not to the repository.
-/

namespace FsWatch

/-- Text as a list of characters (bytes of the UTF-8 control file). -/
abbrev Str := List Char

/-- `pat` occurs at the start of `s` (used to scan for substring matches). -/
def matchesAt (pat s : Str) : Bool :=
  decide (List.take pat.length s = pat)

/-- First index at which `pat` occurs in `s`, if any
(the scan underlying JS `indexOf`). -/
def indexOfAux (pat : Str) : Str → Option Nat
  | [] => if matchesAt pat [] then some 0 else none
  | c :: t =>
    if matchesAt pat (c :: t) then some 0
    else (indexOfAux pat t).map (· + 1)

/-- JS `s.indexOf(pat)`: first occurrence index, or `-1` when absent. -/
def indexOf (s pat : Str) : Int :=
  match indexOfAux pat s with
  | some n => (n : Int)
  | none => -1

/-- JS `s.includes(pat)`. -/
def includes (s pat : Str) : Bool :=
  (indexOfAux pat s).isSome

/-- Clamp a JS string index into `[0, s.length]` (negative values and other
non-positive results of index arithmetic clamp to `0`). -/
def clampIdx (s : Str) (a : Int) : Nat :=
  min a.toNat s.length

/-- JS `s.substring(a, b)`: both arguments are clamped into `[0, length]`
and swapped when `a > b`. -/
def jsSubstring (s : Str) (a b : Int) : Str :=
  (s.take (max (clampIdx s a) (clampIdx s b))).drop
    (min (clampIdx s a) (clampIdx s b))

/-- JS `s.substring(a)` (one-argument form: up to the end of the string). -/
def substringFrom (s : Str) (a : Int) : Str :=
  jsSubstring s a (s.length : Int)

/-! ### Command constants (`app.js` lines 17–20) -/

def CREATE_FILE : Str := "create a file".toList

def DELETE_FILE : Str := "delete the file".toList

def RENAME_FILE : Str := "rename the file".toList

def ADD_TO_FILE : Str := "add to the file".toList

/-- The literal `" to "` the rename branch splits on. -/
def TO_SEP : Str := " to ".toList

/-- The literal `" this content: "` the add branch splits on. -/
def CONTENT_SEP : Str := " this content: ".toList

/-- A parsed instruction routed to one of the four file operations. -/
inductive Command
  | createFile (path : Str)
  | deleteFile (path : Str)
  | renameFile (oldPath newPath : Str)
  | addToFile (path content : Str)
deriving DecidableEq

/-- The `CREATE_FILE` branch of the change handler (lines 100–103). -/
def parseCreate (command : Str) : List Command :=
  if includes command CREATE_FILE then
    [Command.createFile (substringFrom command ((CREATE_FILE.length : Int) + 1))]
  else []

/-- The `DELETE_FILE` branch of the change handler (lines 107–110). -/
def parseDelete (command : Str) : List Command :=
  if includes command DELETE_FILE then
    [Command.deleteFile (substringFrom command ((DELETE_FILE.length : Int) + 1))]
  else []

/-- The `RENAME_FILE` branch of the change handler (lines 113–118). -/
def parseRename (command : Str) : List Command :=
  if includes command RENAME_FILE then
    let i := indexOf command TO_SEP
    [Command.renameFile (jsSubstring command ((RENAME_FILE.length : Int) + 1) i)
      (substringFrom command (i + 4))]
  else []

/-- The `ADD_TO_FILE` branch of the change handler (lines 122–127).
The source computes the path start from `RENAME_FILE.length`, exactly as
transcribed here. -/
def parseAdd (command : Str) : List Command :=
  if includes command ADD_TO_FILE then
    let i := indexOf command CONTENT_SEP
    [Command.addToFile (jsSubstring command ((RENAME_FILE.length : Int) + 1) i)
      (substringFrom command (i + 15))]
  else []

/-- The four independent `if (command.includes(...))` blocks of the change
handler, in source order; every matching branch dispatches its command. -/
def dispatch (command : Str) : List Command :=
  parseCreate command ++ parseDelete command ++ parseRename command ++ parseAdd command

/-! ### Filesystem model

The handlers call Node's `fs/promises` (`open`, `unlink`) and `FileHandle`
methods (`appendFile`, `close`).  These platform primitives are modelled
over an abstract store mapping paths to contents, with association lists of
injectable OS-level errors so that a failure of any cause (not only
"file absent") can be exercised, as the platform allows. -/

/-- OS-level error causes surfaced by the platform calls. -/
inductive FsErr
  | notFound
  | permissionDenied
  | other (code : Nat)
deriving DecidableEq

/-- The store: an association list from paths to file contents. -/
abbrev FS := List (Str × Str)

/-- Look up the first binding of `p`. -/
def assoc {β : Type} : List (Str × β) → Str → Option β
  | [], _ => none
  | (q, c) :: t, p => if q = p then some c else assoc t p

/-- Bind `p` to `c`, replacing an existing binding. -/
def setFS : FS → Str → Str → FS
  | [], p, c => [(p, c)]
  | (q, d) :: t, p, c => if q = p then (p, c) :: t else (q, d) :: setFS t p c

/-- Remove every binding of `p`. -/
def removeFS : FS → Str → FS
  | [], _ => []
  | (q, d) :: t, p => if q = p then removeFS t p else (q, d) :: removeFS t p

/-- The world the handlers act on: the store plus injectable failures for
each platform call (`fs.open(_, "r")`, `fs.open(_, "w")`, `fs.unlink`,
`FileHandle.appendFile`). -/
structure FsEnv where
  fs : FS
  readErrs : List (Str × FsErr)
  writeErrs : List (Str × FsErr)
  unlinkErrs : List (Str × FsErr)
  appendErrs : List (Str × FsErr)
deriving DecidableEq

/-- `fs.open(path, "r")`: fails with an injected error or, when the path is
absent, with `notFound`; otherwise succeeds. -/
def openRead (env : FsEnv) (path : Str) : Except FsErr Unit :=
  match assoc env.readErrs path with
  | some e => .error e
  | none => if (assoc env.fs path).isSome then .ok () else .error .notFound

/-- `fs.open(path, "w")`: fails with an injected error; otherwise creates
the file or truncates an existing one to empty contents. -/
def openWrite (env : FsEnv) (path : Str) : Except FsErr FsEnv :=
  match assoc env.writeErrs path with
  | some e => .error e
  | none => .ok { env with fs := setFS env.fs path [] }

/-- `fs.unlink(path)`: fails with an injected error or with `notFound` when
the path is absent; otherwise removes the binding. -/
def unlinkFS (env : FsEnv) (path : Str) : Except FsErr FsEnv :=
  match assoc env.unlinkErrs path with
  | some e => .error e
  | none =>
    if (assoc env.fs path).isSome then .ok { env with fs := removeFS env.fs path }
    else .error .notFound

/-- Effect of a successful append on the store: the data is added after the
current contents. -/
def appendFS (fs : FS) (path : Str) (data : Str) : FS :=
  setFS fs path (((assoc fs path).getD []) ++ data)

/-- `FileHandle.appendFile(data)`: fails with an injected error (disk full,
I/O error, ...); otherwise appends to the current contents. -/
def appendFile (env : FsEnv) (path data : Str) : Except FsErr FsEnv :=
  match assoc env.appendErrs path with
  | some e => .error e
  | none => .ok { env with fs := appendFS env.fs path data }

/-- The `console.log` lines the handlers emit, one constructor per
template string of `app.js`. -/
inductive LogMsg
  | alreadyExists (path : Str)
  | newFileCreated
  | deleting (path : Str)
  | errObj (e : FsErr)
  | renaming (oldPath newPath : Str)
  | addingTo (path : Str)
  | errHappened (e : FsErr)
  | contentIs (content : Str)
deriving DecidableEq

/-- The platform calls a handler performs, in order. -/
inductive FsOp
  | openR (path : Str) (ok : Bool)
  | openW (path : Str) (ok : Bool)
  | writeData (path : Str) (data : Str)
  | closeH (path : Str)
  | unlinkP (path : Str) (ok : Bool)
deriving DecidableEq

/-- Whether running a handler left any uncaught failure: `completed` means
every failure that occurred was caught inside the handler, `rejected e`
means the error `e` escaped the handler uncaught — either by rejecting the
handler's own promise (which no caller awaits or catches) or by rejecting
an un-awaited inner promise; both surface as unhandled rejections outside
the handler. -/
inductive HandlerOutcome
  | completed
  | rejected (e : FsErr)
deriving DecidableEq

/-- Result of running one handler: the new world, the log lines, the
platform-call trace, and whether the promise resolved. -/
structure HandlerResult where
  env : FsEnv
  logs : List LogMsg
  trace : List FsOp
  outcome : HandlerOutcome
deriving DecidableEq

/-- `createFile` (`app.js` lines 22–34): try to open for reading; on
success log "already exists"; on any failure open for writing (creating or
truncating) and log success.  The write-open sits inside the `catch`
block, so its own failure is uncaught and rejects the handler's promise. -/
def createFile (env : FsEnv) (path : Str) : HandlerResult :=
  match openRead env path with
  | .ok _ =>
    { env := env, logs := [.alreadyExists path],
      trace := [.openR path true, .closeH path], outcome := .completed }
  | .error _ =>
    match openWrite env path with
    | .ok env2 =>
      { env := env2, logs := [.newFileCreated],
        trace := [.openR path false, .openW path true, .closeH path],
        outcome := .completed }
    | .error e =>
      { env := env, logs := [], trace := [.openR path false, .openW path false],
        outcome := .rejected e }

/-- `deleteFile` (`app.js` lines 36–44): log, then `fs.unlink` inside a
`try`; any failure is caught and logged. -/
def deleteFile (env : FsEnv) (path : Str) : HandlerResult :=
  match unlinkFS env path with
  | .ok env2 =>
    { env := env2, logs := [.deleting path], trace := [.unlinkP path true],
      outcome := .completed }
  | .error e =>
    { env := env, logs := [.deleting path, .errObj e], trace := [.unlinkP path false],
      outcome := .completed }

/-- `renameFile` (`app.js` lines 45–47): logs the intent only; no
filesystem call is made. -/
def renameFile (env : FsEnv) (oldPath newPath : Str) : HandlerResult :=
  { env := env, logs := [.renaming oldPath newPath], trace := [], outcome := .completed }

/-- `addToFile` (`app.js` lines 49–59): log, then a `try` block that awaits
`fs.open(path, "w")` (truncating) and then calls
`existingFileHandle.appendFile(content)` and `.close()` **without
awaiting them**; finally log the content.  A failure of the awaited
write-open is caught and logged, but a rejection of the un-awaited
`appendFile` bypasses the `try`/`catch` and escapes the handler as an
unhandled rejection, with the file left truncated. -/
def addToFile (env : FsEnv) (path content : Str) : HandlerResult :=
  match openWrite env path with
  | .ok env2 =>
    match appendFile env2 path content with
    | .ok env3 =>
      { env := env3,
        logs := [.addingTo path, .contentIs content],
        trace := [.openW path true, .writeData path content, .closeH path],
        outcome := .completed }
    | .error e =>
      { env := env2,
        logs := [.addingTo path, .contentIs content],
        trace := [.openW path true, .writeData path content, .closeH path],
        outcome := .rejected e }
  | .error e =>
    { env := env, logs := [.addingTo path, .errHappened e, .contentIs content],
      trace := [.openW path false], outcome := .completed }

/-! ### The read step of the change handler -/

/-- `Buffer.alloc(size)`: `size` zero bytes. -/
def bufferAlloc (size : Nat) : Str :=
  List.replicate size (Char.ofNat 0)

/-- `FileHandle.read(buff, offset, length, position)`: reads up to `length`
bytes from the file at `position` into the buffer at `offset`, returning
`(bytesRead, buffer)`; `bytesRead` may fall short when the file is shorter
than requested. -/
def handleRead (file buff : Str) (offset length position : Nat) : Nat × Str :=
  let avail := file.length - position
  let bytesRead := min length (min avail (buff.length - offset))
  (bytesRead,
    buff.take offset ++ (file.drop position).take bytesRead
      ++ buff.drop (offset + bytesRead))

/-- The read step (`app.js` lines 74–96): stat the size, allocate a buffer
of exactly that size, read from position 0 at offset 0 for the buffer's
length, then decode the *entire* buffer (`buff.toString`), discarding the
returned byte count.  `sizeAtStat` is the size the stat reported;
`fileAtRead` is the control file's contents when the read executes (the
two can differ when the file changes in between). -/
def readStep (sizeAtStat : Nat) (fileAtRead : Str) : Str :=
  let buff := bufferAlloc sizeAtStat
  (handleRead fileAtRead buff 0 buff.length 0).2

/-! ### The watcher loop -/

/-- One event delivered by `fs.watch`. -/
structure WatchEvent where
  eventType : Str
deriving DecidableEq

/-- The `eventType` string the loop compares against. -/
def CHANGE_T : Str := "change".toList

/-- The `for await (const event of watcher)` loop (`app.js` lines 141–148):
each event whose `eventType` is `"change"` emits one change signal —
starting one read+dispatch cycle without awaiting it — and every other
event is discarded.  Returns the number of cycles started. -/
def watcherCycles : List WatchEvent → Nat
  | [] => 0
  | e :: rest => (if e.eventType = CHANGE_T then 1 else 0) + watcherCycles rest

/-- The text the AddToFile grammar rule produces:
`"add to the file " ++ path ++ " this content: " ++ content`. -/
def addCommandText (path content : Str) : Str :=
  ADD_TO_FILE ++ " ".toList ++ path ++ CONTENT_SEP ++ content

/-- Recognizes the `writeData` operations in a handler trace. -/
def isWriteOp : FsOp → Bool
  | .writeData _ _ => true
  | _ => false

/-! ### Concrete worlds used by witnesses and counterexamples -/

/-- An empty filesystem with no injected failures. -/
def fs0 : FsEnv := ⟨[], [], [], [], []⟩

/-- A filesystem holding `a.txt` with contents `hi`, no injected failures. -/
def fsAB : FsEnv := ⟨[("a.txt".toList, "hi".toList)], [], [], [], []⟩

/-- An empty filesystem where opening `a.txt` for writing is denied. -/
def fsWFail : FsEnv := ⟨[], [], [("a.txt".toList, FsErr.permissionDenied)], [], []⟩

/-- A filesystem holding `a.txt` with contents `data`, where opening
`a.txt` for reading is denied (a non-NotFound read failure). -/
def fsDenied : FsEnv :=
  ⟨[("a.txt".toList, "data".toList)], [("a.txt".toList, FsErr.permissionDenied)],
    [], [], []⟩

/-- An empty filesystem where appending to `a.txt` fails (e.g. the disk
fills after the truncating open succeeded). -/
def fsAFail : FsEnv := ⟨[], [], [], [], [("a.txt".toList, FsErr.other 28)]⟩

/-! ### Helper lemmas -/

theorem assoc_setFS_self (fs : FS) (p c : Str) :
    assoc (setFS fs p c) p = some c := by
  induction fs with
  | nil => simp [setFS, assoc]
  | cons hd t ih =>
    obtain ⟨q, d⟩ := hd
    by_cases h : q = p
    · simp [setFS, h, assoc]
    · simp [setFS, h, assoc, ih]

theorem matchesAt_length {pat s : Str} (h : matchesAt pat s = true) :
    pat.length ≤ s.length := by
  have hq := of_decide_eq_true h
  have hl := congrArg List.length hq
  simp [List.length_take] at hl
  omega

theorem includes_length {s pat : Str} (h : includes s pat = true) :
    pat.length ≤ s.length := by
  unfold includes at h
  induction s with
  | nil =>
    by_cases hm : matchesAt pat [] = true
    · exact matchesAt_length hm
    · unfold indexOfAux at h
      simp [hm] at h
  | cons c t ih =>
    by_cases hm : matchesAt pat (c :: t) = true
    · exact matchesAt_length hm
    · unfold indexOfAux at h
      simp [hm, Option.isSome_map] at h
      have := ih h
      simp only [List.length_cons]
      omega

theorem includes_false_indexOf {s pat : Str} (h : includes s pat = false) :
    indexOf s pat = -1 := by
  unfold includes at h
  unfold indexOf
  cases hx : indexOfAux pat s with
  | none => rfl
  | some n => rw [hx] at h; simp at h

theorem includes_of_matchesAt {pat s : Str} (h : matchesAt pat s = true) :
    includes s pat = true := by
  unfold includes
  cases s with
  | nil => unfold indexOfAux; simp [h]
  | cons c t => unfold indexOfAux; simp [h]

theorem take_min_length (s : Str) (n : Nat) :
    s.take (min n s.length) = s.take n := by
  rcases Nat.le_total n s.length with h | h
  · rw [Nat.min_eq_left h]
  · rw [Nat.min_eq_right h, List.take_length, List.take_of_length_le h]

theorem jsSubstring_middle (l m r : Str) (a b : Int)
    (ha : a.toNat = l.length) (hb : b.toNat = l.length + m.length) :
    jsSubstring (l ++ m ++ r) a b = m := by
  unfold jsSubstring clampIdx
  have h1 : (l ++ m ++ r).length = l.length + m.length + r.length := by
    rw [List.length_append, List.length_append]
  have h2 : min a.toNat (l ++ m ++ r).length = l.length := by omega
  have h3 : min b.toNat (l ++ m ++ r).length = l.length + m.length := by omega
  rw [h2, h3, Nat.max_eq_right (by omega), Nat.min_eq_left (by omega)]
  rw [List.take_left' (by simp), List.drop_left]

theorem substringFrom_right (l m : Str) (a : Int) (ha : a.toNat = l.length) :
    substringFrom (l ++ m) a = m := by
  unfold substringFrom
  have := jsSubstring_middle l m [] a ((l ++ m).length : Int) ha
    (by simp only [List.length_append]; omega)
  simpa using this

/-! ### Claim C1 -/

/-- C1 (counterexample): on the empty filesystem, `createFile "a.txt"`
performs no write call at all — its platform-call trace contains no
`writeData` — and the created file's contents are empty, so no placeholder
payload is ever stored. -/
theorem c1_counterexample :
    (createFile fs0 "a.txt".toList).trace.filter isWriteOp = []
      ∧ assoc (createFile fs0 "a.txt".toList).env.fs "a.txt".toList = some []
      ∧ (createFile fs0 "a.txt".toList).logs = [LogMsg.newFileCreated] := by decide

/-- C1 (amended): for every path that does not exist, when the write-open
succeeds, `createFile` leaves a new *empty* file at the path (it performs
no write of any payload) and reports success. -/
theorem c1_createFile_creates_empty (env : FsEnv) (path : Str)
    (habs : assoc env.fs path = none)
    (hw : assoc env.writeErrs path = none) :
    assoc (createFile env path).env.fs path = some []
      ∧ (createFile env path).logs = [LogMsg.newFileCreated]
      ∧ (createFile env path).outcome = HandlerOutcome.completed
      ∧ (createFile env path).trace.filter isWriteOp = [] := by
  have hread : ∃ e, openRead env path = .error e := by
    unfold openRead
    cases hre : assoc env.readErrs path with
    | none => exact ⟨.notFound, by simp [habs]⟩
    | some e => exact ⟨e, rfl⟩
  obtain ⟨e, hre⟩ := hread
  have how : openWrite env path = .ok { env with fs := setFS env.fs path [] } := by
    unfold openWrite; rw [hw]
  unfold createFile
  rw [hre, how]
  simp [assoc_setFS_self, List.filter, isWriteOp]

/-- C1 (witness): the amended statement at the empty filesystem and the
path `a.txt`. -/
theorem c1_witness :
    assoc (createFile fs0 "a.txt".toList).env.fs "a.txt".toList = some []
      ∧ (createFile fs0 "a.txt".toList).logs = [LogMsg.newFileCreated]
      ∧ (createFile fs0 "a.txt".toList).outcome = HandlerOutcome.completed
      ∧ (createFile fs0 "a.txt".toList).trace.filter isWriteOp = [] :=
  c1_createFile_creates_empty fs0 "a.txt".toList (by decide) (by decide)

/-! ### Claim C2 -/

/-- C2 (counterexample): with `a.txt` present, `renameFile "a.txt" "b.txt"`
leaves no file at `b.txt`, leaves `a.txt` in place, and makes no platform
call — contradicting the claim that the file is renamed on the
filesystem. -/
theorem c2_counterexample :
    assoc (renameFile fsAB "a.txt".toList "b.txt".toList).env.fs "b.txt".toList = none
      ∧ assoc (renameFile fsAB "a.txt".toList "b.txt".toList).env.fs "a.txt".toList
          = some "hi".toList
      ∧ (renameFile fsAB "a.txt".toList "b.txt".toList).trace = [] := by decide

/-- C2 (amended): for every pair of paths, `renameFile` only logs the
intent to rename; it performs no filesystem operation, so the store is
unchanged. -/
theorem c2_renameFile_logs_only (env : FsEnv) (oldPath newPath : Str) :
    renameFile env oldPath newPath
      = ⟨env, [LogMsg.renaming oldPath newPath], [], HandlerOutcome.completed⟩ := rfl

/-! ### Claim C3 -/

/-- C3 (counterexample): when the write-open of `a.txt` fails with
`PermissionDenied` inside `createFile`'s error branch, the handler's
promise rejects — the failure is neither caught nor logged. -/
theorem c3_counterexample :
    (createFile fsWFail "a.txt".toList).outcome
        = HandlerOutcome.rejected FsErr.permissionDenied
      ∧ (createFile fsWFail "a.txt".toList).logs = [] := by decide

/-- C3 (amended): failures in `deleteFile` are caught at the point of
occurrence and logged (the handler always completes), and `renameFile`
cannot fail; `addToFile` catches and logs a failure of its awaited
write-open, but a rejection of its un-awaited `appendFile` bypasses the
`try`/`catch` and escapes the handler uncaught and unlogged; and a failure
of the write-open inside `createFile`'s error branch is likewise uncaught,
unlogged, and rejects the handler's promise. -/
theorem c3_catch_coverage :
    (∀ env path, (deleteFile env path).outcome = HandlerOutcome.completed)
    ∧ (∀ env oldPath newPath,
        (renameFile env oldPath newPath).outcome = HandlerOutcome.completed)
    ∧ (∀ env path content e, assoc env.writeErrs path = some e →
        (addToFile env path content).outcome = HandlerOutcome.completed
          ∧ LogMsg.errHappened e ∈ (addToFile env path content).logs)
    ∧ (∀ env path content e, assoc env.writeErrs path = none →
        assoc env.appendErrs path = some e →
        (addToFile env path content).outcome = HandlerOutcome.rejected e
          ∧ LogMsg.errHappened e ∉ (addToFile env path content).logs)
    ∧ (∀ env path, (createFile env path).outcome ≠ HandlerOutcome.completed →
        ∃ e, assoc env.writeErrs path = some e
          ∧ (createFile env path).outcome = HandlerOutcome.rejected e
          ∧ (createFile env path).logs = []) := by
  refine ⟨?_, ?_, ?_, ?_, ?_⟩
  · intro env path
    unfold deleteFile
    cases h : unlinkFS env path <;> rfl
  · intro env oldPath newPath
    rfl
  · intro env path content e hw
    have how : openWrite env path = .error e := by
      unfold openWrite; rw [hw]
    unfold addToFile
    rw [how]
    simp
  · intro env path content e hw ha
    have how : openWrite env path = .ok { env with fs := setFS env.fs path [] } := by
      unfold openWrite; rw [hw]
    have hap : appendFile { env with fs := setFS env.fs path [] } path content
        = .error e := by
      unfold appendFile
      simp [ha]
    unfold addToFile
    rw [how]
    simp [hap]
  · intro env path h
    unfold createFile at h ⊢
    cases hre : openRead env path with
    | ok u => rw [hre] at h; simp at h
    | error e =>
      cases how : openWrite env path with
      | ok env2 => rw [hre, how] at h; simp at h
      | error e2 =>
        refine ⟨e2, ?_, rfl, rfl⟩
        unfold openWrite at how
        cases hw : assoc env.writeErrs path with
        | none => rw [hw] at how; simp at how
        | some e3 => rw [hw] at how; simp at how; rw [how]

/-- C3 (witness): the amended statement at concrete worlds — a caught and
logged write-open failure of `addToFile` on `fsWFail`, an uncaught,
unlogged append failure of `addToFile` on `fsAFail`, and the uncaught
write-open failure of `createFile` on `fsWFail`. -/
theorem c3_witness :
    (deleteFile fs0 "x".toList).outcome = HandlerOutcome.completed
    ∧ (renameFile fs0 "x".toList "y".toList).outcome = HandlerOutcome.completed
    ∧ ((addToFile fsWFail "a.txt".toList "c".toList).outcome
          = HandlerOutcome.completed
        ∧ LogMsg.errHappened FsErr.permissionDenied
            ∈ (addToFile fsWFail "a.txt".toList "c".toList).logs)
    ∧ ((addToFile fsAFail "a.txt".toList "c".toList).outcome
          = HandlerOutcome.rejected (FsErr.other 28)
        ∧ LogMsg.errHappened (FsErr.other 28)
            ∉ (addToFile fsAFail "a.txt".toList "c".toList).logs)
    ∧ ∃ e, assoc fsWFail.writeErrs "a.txt".toList = some e
        ∧ (createFile fsWFail "a.txt".toList).outcome = HandlerOutcome.rejected e
        ∧ (createFile fsWFail "a.txt".toList).logs = [] :=
  ⟨c3_catch_coverage.1 fs0 "x".toList,
    c3_catch_coverage.2.1 fs0 "x".toList "y".toList,
    c3_catch_coverage.2.2.1 fsWFail "a.txt".toList "c".toList
      FsErr.permissionDenied (by decide),
    c3_catch_coverage.2.2.2.1 fsAFail "a.txt".toList "c".toList
      (FsErr.other 28) (by decide) (by decide),
    c3_catch_coverage.2.2.2.2 fsWFail "a.txt".toList (by decide)⟩

/-! ### Claim C7 -/

/-- C7: `addToFile` opens the path in write mode — truncating an existing
file or creating a new one — then appends the content and closes; when
those platform calls succeed the final contents are exactly the appended
content, so prior content is not preserved. -/
theorem c7_addToFile_truncates (env : FsEnv) (path content : Str)
    (hw : assoc env.writeErrs path = none)
    (ha : assoc env.appendErrs path = none) :
    assoc (addToFile env path content).env.fs path = some content
      ∧ (addToFile env path content).trace
          = [FsOp.openW path true, FsOp.writeData path content, FsOp.closeH path]
      ∧ (addToFile env path content).outcome = HandlerOutcome.completed := by
  have how : openWrite env path = .ok { env with fs := setFS env.fs path [] } := by
    unfold openWrite; rw [hw]
  have hap : appendFile { env with fs := setFS env.fs path [] } path content
      = .ok { env with fs := appendFS (setFS env.fs path []) path content } := by
    unfold appendFile
    simp [ha]
  unfold addToFile
  rw [how]
  simp [hap, appendFS, assoc_setFS_self]

/-- C7 (witness): appending `new` to `a.txt`, which held `hi`, leaves
exactly `new` — the prior content is gone. -/
theorem c7_witness :
    assoc (addToFile fsAB "a.txt".toList "new".toList).env.fs "a.txt".toList
        = some "new".toList
      ∧ (addToFile fsAB "a.txt".toList "new".toList).trace
          = [FsOp.openW "a.txt".toList true,
             FsOp.writeData "a.txt".toList "new".toList,
             FsOp.closeH "a.txt".toList]
      ∧ (addToFile fsAB "a.txt".toList "new".toList).outcome
          = HandlerOutcome.completed :=
  c7_addToFile_truncates fsAB "a.txt".toList "new".toList (by decide) (by decide)

/-! ### Claim C10 -/

/-- C10: whenever the read-open fails — for any cause, not only NotFound —
`createFile` proceeds to open the path for writing, which creates the file
or truncates an existing one to empty contents. -/
theorem c10_createFile_any_read_failure (env : FsEnv) (path : Str) (e : FsErr)
    (hr : openRead env path = .error e)
    (hw : assoc env.writeErrs path = none) :
    assoc (createFile env path).env.fs path = some []
      ∧ FsOp.openW path true ∈ (createFile env path).trace
      ∧ (createFile env path).outcome = HandlerOutcome.completed := by
  have how : openWrite env path = .ok { env with fs := setFS env.fs path [] } := by
    unfold openWrite; rw [hw]
  unfold createFile
  rw [hr, how]
  simp [assoc_setFS_self]

/-- C10 (witness): with `a.txt` present but its read-open denied with
`PermissionDenied`, `createFile` still write-opens and truncates the
existing contents `data` to empty. -/
theorem c10_witness :
    assoc (createFile fsDenied "a.txt".toList).env.fs "a.txt".toList = some []
      ∧ FsOp.openW "a.txt".toList true ∈ (createFile fsDenied "a.txt".toList).trace
      ∧ (createFile fsDenied "a.txt".toList).outcome = HandlerOutcome.completed :=
  c10_createFile_any_read_failure fsDenied "a.txt".toList FsErr.permissionDenied
    rfl (by decide)

/-! ### Claim C4 -/

/-- C4 (counterexample): `"please create a file x"` begins with none of the
four literal prefixes, yet the dispatcher — which tests `includes`, not a
start-of-text match — still dispatches a `createFile` command. -/
theorem c4_counterexample :
    (matchesAt CREATE_FILE "please create a file x".toList = false
      ∧ matchesAt DELETE_FILE "please create a file x".toList = false
      ∧ matchesAt RENAME_FILE "please create a file x".toList = false
      ∧ matchesAt ADD_TO_FILE "please create a file x".toList = false)
      ∧ dispatch "please create a file x".toList
          = [Command.createFile "a file x".toList] := by decide

/-- C4 (amended): for every input text that does not *contain* any of the
four literal command markers as a substring, no command is produced and no
file operation is dispatched. -/
theorem c4_no_match_no_dispatch (command : Str)
    (h1 : includes command CREATE_FILE = false)
    (h2 : includes command DELETE_FILE = false)
    (h3 : includes command RENAME_FILE = false)
    (h4 : includes command ADD_TO_FILE = false) :
    dispatch command = [] := by
  unfold dispatch parseCreate parseDelete parseRename parseAdd
  simp [h1, h2, h3, h4]

/-- C4 (witness): parsing `"not a command"` dispatches nothing. -/
theorem c4_witness : dispatch "not a command".toList = [] :=
  c4_no_match_no_dispatch "not a command".toList
    (by decide) (by decide) (by decide) (by decide)

/-! ### Claim C5 -/

/-- C5 (counterexample): a cycle whose stat reported size 2 while the file
holds only `a` by the time of the read: one byte is actually read, but the
parsed text is the whole two-byte buffer — `a` followed by a zero byte —
not the single byte read. -/
theorem c5_counterexample :
    (handleRead "a".toList (bufferAlloc 2) 0 (bufferAlloc 2).length 0).1 = 1
      ∧ readStep 2 "a".toList ≠ "a".toList
      ∧ readStep 2 "a".toList = "a".toList ++ [Char.ofNat 0] := by decide

/-- C5 (amended): the read step queries the size, allocates a buffer of
exactly that size, and reads from file position 0 into buffer offset 0 for
that many bytes — but the text it then parses is the *entire* buffer: the
bytes actually read padded with the buffer's remaining zero bytes.  The
returned read count is discarded, not treated as authoritative. -/
theorem c5_read_parses_whole_buffer (sizeAtStat : Nat) (fileAtRead : Str) :
    (bufferAlloc sizeAtStat).length = sizeAtStat
      ∧ readStep sizeAtStat fileAtRead
          = fileAtRead.take (min sizeAtStat fileAtRead.length)
            ++ List.replicate (sizeAtStat - min sizeAtStat fileAtRead.length)
                (Char.ofNat 0) := by
  constructor
  · simp [bufferAlloc]
  · unfold readStep handleRead bufferAlloc
    simp only [List.length_replicate, List.take_zero, List.drop_zero, Nat.zero_add,
      Nat.sub_zero, List.drop_replicate, List.nil_append]
    have hm : min sizeAtStat (min fileAtRead.length sizeAtStat)
        = min sizeAtStat fileAtRead.length := by omega
    rw [hm]

/-! ### Claim C8 -/

/-- C8: only events whose `eventType` is `"change"` start a read+dispatch
cycle — the number of cycles equals the number of `"change"` events, every
other event being consumed and discarded — and a burst of `n` change
events starts exactly `n` independent cycles (the loop state carries no
record of earlier cycles' completion). -/
theorem c8_change_events_drive_cycles :
    (∀ events : List WatchEvent,
        watcherCycles events
          = (events.filter fun e => decide (e.eventType = CHANGE_T)).length)
    ∧ (∀ n : Nat, watcherCycles (List.replicate n ⟨CHANGE_T⟩) = n) := by
  constructor
  · intro events
    induction events with
    | nil => rfl
    | cons e rest ih =>
      by_cases h : e.eventType = CHANGE_T
      · simp [watcherCycles, h, List.filter, ih, Nat.add_comm]
      · simp [watcherCycles, h, ih, List.filter]
  · intro n
    induction n with
    | zero => rfl
    | succ k ih => simp [List.replicate_succ, watcherCycles, ih, Nat.add_comm]

/-! ### Claim C6 -/

/-- C6: parsing `"add to the file " ++ path ++ " this content: " ++ content`
— with the written separator being the first occurrence of
`" this content: "`, as the claim's splitting rule requires — yields
`addToFile` with exactly that path and exactly that content.  The source
computes the path's start from `RENAME_FILE.length`, which is harmless
because both marker strings are 15 characters long. -/
theorem c6_parseAdd_extracts (path content : Str)
    (hfirst : indexOfAux CONTENT_SEP (addCommandText path content)
        = some (16 + path.length)) :
    parseAdd (addCommandText path content) = [Command.addToFile path content]
      ∧ Command.addToFile path content
          ∈ dispatch (addCommandText path content) := by
  have hl16 : (ADD_TO_FILE ++ " ".toList).length = 16 := by decide
  have hinc : includes (addCommandText path content) ADD_TO_FILE = true := by
    apply includes_of_matchesAt
    unfold matchesAt
    apply decide_eq_true
    show List.take ADD_TO_FILE.length (addCommandText path content) = ADD_TO_FILE
    unfold addCommandText
    simp only [List.append_assoc]
    exact List.take_left ADD_TO_FILE _
  have hidx : indexOf (addCommandText path content) CONTENT_SEP
      = ((16 + path.length : Nat) : Int) := by
    unfold indexOf
    rw [hfirst]
  have e1 : addCommandText path content
      = ((ADD_TO_FILE ++ " ".toList) ++ path) ++ (CONTENT_SEP ++ content) := by
    unfold addCommandText
    rw [List.append_assoc (ADD_TO_FILE ++ " ".toList ++ path) CONTENT_SEP content]
  have hpath : jsSubstring (addCommandText path content)
      ((RENAME_FILE.length : Int) + 1) ((16 + path.length : Nat) : Int) = path := by
    rw [e1]
    exact jsSubstring_middle (ADD_TO_FILE ++ " ".toList) path (CONTENT_SEP ++ content)
      _ _ (by decide) (by rw [hl16]; omega)
  have hcontent : substringFrom (addCommandText path content)
      (((16 + path.length : Nat) : Int) + 15) = content := by
    unfold addCommandText
    apply substringFrom_right
    simp only [List.length_append]
    have h1 : ADD_TO_FILE.length = 15 := by decide
    have h2 : CONTENT_SEP.length = 15 := by decide
    have h3 : (" ".toList).length = 1 := by decide
    omega
  have h1 : parseAdd (addCommandText path content)
      = [Command.addToFile path content] := by
    simp only [parseAdd, hinc, if_true, hidx, hpath, hcontent]
  refine ⟨h1, ?_⟩
  simp [dispatch, h1]

/-- C6 (witness): the concrete example of the claim — path `a.txt`,
content `hello world`. -/
theorem c6_witness :
    parseAdd (addCommandText "a.txt".toList "hello world".toList)
        = [Command.addToFile "a.txt".toList "hello world".toList]
      ∧ Command.addToFile "a.txt".toList "hello world".toList
          ∈ dispatch (addCommandText "a.txt".toList "hello world".toList) :=
  c6_parseAdd_extracts "a.txt".toList "hello world".toList (by decide)

/-! ### Claim C9 -/

/-- C9: for every text that contains `"rename the file"` but no `" to "`,
the rename branch still dispatches: the marker index is `-1`, and the JS
`substring` clamp-and-swap semantics make `oldPath` the first 16
characters of the text and `newPath` the text from index 3 onward. -/
theorem c9_rename_without_to (command : Str)
    (hr : includes command RENAME_FILE = true)
    (ht : includes command TO_SEP = false) :
    parseRename command
        = [Command.renameFile (command.take 16) (command.drop 3)]
      ∧ Command.renameFile (command.take 16) (command.drop 3)
          ∈ dispatch command := by
  have hR : RENAME_FILE.length = 15 := by decide
  have hlen : 15 ≤ command.length := by
    have := includes_length hr
    omega
  have hidx : indexOf command TO_SEP = -1 := includes_false_indexOf ht
  have hpath : jsSubstring command ((RENAME_FILE.length : Int) + 1) (-1)
      = command.take 16 := by
    unfold jsSubstring clampIdx
    have e1 : max (min ((RENAME_FILE.length : Int) + 1).toNat command.length)
        (min ((-1 : Int)).toNat command.length) = min 16 command.length := by
      omega
    have e2 : min (min ((RENAME_FILE.length : Int) + 1).toNat command.length)
        (min ((-1 : Int)).toNat command.length) = 0 := by
      omega
    rw [e1, e2, List.drop_zero, take_min_length]
  have hnew : substringFrom command ((-1 : Int) + 4) = command.drop 3 := by
    unfold substringFrom jsSubstring clampIdx
    have e1 : max (min ((-1 : Int) + 4).toNat command.length)
        (min ((command.length : Int)).toNat command.length) = command.length := by
      omega
    have e2 : min (min ((-1 : Int) + 4).toNat command.length)
        (min ((command.length : Int)).toNat command.length) = 3 := by
      omega
    rw [e1, e2, List.take_length]
  have h1 : parseRename command
      = [Command.renameFile (command.take 16) (command.drop 3)] := by
    simp only [parseRename, hr, if_true, hidx, hpath, hnew]
  refine ⟨h1, ?_⟩
  simp [dispatch, h1]

/-- C9 (witness): `"rename the file a.txt,b.txt"` has no `" to "` marker,
yet a rename command is dispatched, built from `substring(16, -1)` and
`substring(3)`. -/
theorem c9_witness :
    parseRename "rename the file a.txt,b.txt".toList
        = [Command.renameFile ("rename the file a.txt,b.txt".toList.take 16)
            ("rename the file a.txt,b.txt".toList.drop 3)]
      ∧ Command.renameFile ("rename the file a.txt,b.txt".toList.take 16)
            ("rename the file a.txt,b.txt".toList.drop 3)
          ∈ dispatch "rename the file a.txt,b.txt".toList :=
  c9_rename_without_to "rename the file a.txt,b.txt".toList (by decide) (by decide)

end FsWatch
